import Mathlib

/-!
Verification of the scheduled-transfer execution engine of the FlowSure
backend (`src/services/scheduledTransferService.js`).

The service is embedded shallowly: the persistent MongoDB collection is a
list of records, every external effect (`checkAuthorization`, the on-chain
`executeScheduledTransfer` of the flow service, `generateNextInstance`,
and the possibility that any individual `findById`/`save` call rejects) is
an oracle supplied in an environment, and every external call made during a
run is recorded in a trace so that theorems can count invocations.
Amounts are modelled as rationals, timestamps as integers.
-/

namespace FlowSure

/-- Transfer lifecycle status, the `status` enum of the
`ScheduledTransfer` model: `scheduled`, `executing`, `completed`,
`failed`, `cancelled`. -/
inductive Status where
  | scheduled
  | executing
  | completed
  | failed
  | cancelled
deriving DecidableEq

/-- String rendering of a status, as interpolated into the
`Transfer status is ..., cannot execute` error message. -/
def Status.toString : Status → String
  | .scheduled => "scheduled"
  | .executing => "executing"
  | .completed => "completed"
  | .failed => "failed"
  | .cancelled => "cancelled"

/-- One element of the `results` array built during recipient fan-out
(lines 63-78 of the service): recipient address, optional transaction id,
a `completed`/`failed` status and an optional error message. -/
structure ResultRecord where
  recipient : String
  transactionId : Option String
  status : Status
  error : Option String
deriving DecidableEq

/-- Modelled from the spec: the `ScheduledTransfer` record
(`src/models/ScheduledTransfer.js` is not among the verified sources;
fields follow spec section 4.1 and the fields the service reads/writes).
`recipients` is the list of recipient addresses (the service only reads
`recipient.address` of each entry), `recipient` the legacy single
recipient, `transactionIds` the persisted result list and `transactionId`
the legacy single transaction id. -/
structure Transfer where
  id : String
  userAddress : String
  title : String
  recipient : String
  recipients : List String
  amount : ℚ
  amountPerRecipient : Bool
  retryLimit : ℕ
  parentRecurringId : Option String
  scheduledDate : ℤ
  status : Status
  executedAt : Option ℤ
  errorMessage : Option String
  transactionIds : Option (List ResultRecord)
  transactionId : Option String
deriving DecidableEq

/-- Modelled from the spec: the Transfer Record Store (spec section 4.3)
is a list of records; `ScheduledTransfer.findById` returns the record
with the given id, if any. -/
def findById (store : List Transfer) (tid : String) : Option Transfer :=
  store.find? (fun t => t.id == tid)

/-- Modelled from the spec: `doc.save()` persists the in-memory record
back into the store, replacing the stored record carrying the same id. -/
def saveById (store : List Transfer) (t : Transfer) : List Transfer :=
  store.map (fun u => if u.id == t.id then t else u)

/-- The shape of the object returned by `checkAuthorization` that the
engine reads: the `isValid` flag and the `maxAmount` limit. -/
structure AuthCheck where
  isValid : Bool
  maxAmount : ℚ
deriving DecidableEq

/-- Outcome of one on-chain send (`executeOnChain`): either the promise
rejects with an error message, or it resolves to an object carrying
`success`, an optional `transactionId` and an optional `error`. -/
inductive SendOutcome where
  | threw (msg : String)
  | ret (success : Bool) (transactionId : Option String) (error : Option String)
deriving DecidableEq

/-- Whether a send outcome counts as successful for the engine
(a resolved result with `success: true`; a rejection never does). -/
def SendOutcome.succeeded : SendOutcome → Bool
  | .threw _ => false
  | .ret s _ _ => s

/-- An external call made by the engine, recorded in the trace:
an on-chain send `executeOnChain(user, recipient, amount, retryLimit)`
or a Recurrence Expander invocation `generateNextInstance(parentId)`. -/
inductive Call where
  | send (user : String) (recipient : String) (amount : ℚ) (retryLimit : ℕ)
  | genNext (parentId : String)
deriving DecidableEq

/-- Whether a trace entry is a Recurrence Expander invocation. -/
def Call.isGenNext : Call → Bool
  | .send _ _ _ _ => false
  | .genNext _ => true

/-- Oracle environment for one run of `executeScheduledTransfer`:
the outcome of the authorization check, of the i-th on-chain send, of the
`generateNextInstance` call, whether each of the two `findById` calls and
each of the three `save()` call sites rejects (and with which message),
and the current time used for `new Date()`. -/
structure Env where
  auth : Except String AuthCheck
  send : ℕ → SendOutcome
  genNext : Except String Unit
  findThrow1 : Option String
  findThrow2 : Option String
  saveThrowExecuting : Option String
  saveThrowCompleted : Option String
  saveThrowFailed : Option String
  time : ℤ

/-- Lines 29-31: the effective recipient list — `transfer.recipients`
when nonempty, otherwise the single legacy `transfer.recipient`. -/
def effectiveRecipients (t : Transfer) : List String :=
  if t.recipients.length > 0 then t.recipients else [t.recipient]

/-- Lines 33-35: the total amount validated against the authorization:
`amount * recipients.length` when `amountPerRecipient` is set, else
`amount`. -/
def totalAmount (amount : ℚ) (perRecipient : Bool) (n : ℕ) : ℚ :=
  if perRecipient then amount * (n : ℚ) else amount

/-- Lines 51-53: the amount sent to one recipient: `amount` when
`amountPerRecipient` is set, else `amount / recipients.length`. -/
def recipientAmount (amount : ℚ) (perRecipient : Bool) (n : ℕ) : ℚ :=
  if perRecipient then amount else amount / (n : ℚ)

/-- The result record pushed for one recipient (lines 63-78): a rejection
is caught and recorded as a `failed` record without transaction id; a
resolved send is recorded with its transaction id and a
`completed`/`failed` status from its `success` flag. -/
def resultOf (addr : String) (o : SendOutcome) : ResultRecord :=
  match o with
  | .threw msg => ⟨addr, none, Status.failed, some msg⟩
  | .ret s tx e => ⟨addr, tx, if s then Status.completed else Status.failed, e⟩

/-- Lines 50-81: the recipient fan-out loop. Walks the recipient list,
sends `recipientAmount` to each (recording the call), catches a thrown
send as a `failed` record, accumulates result records in order, and
tracks the `allSuccessful` flag. `i` is the index of the next recipient
in the oracle. Returns (results, allSuccessful, calls). -/
def fanout (send : ℕ → SendOutcome) (user : String) (amt : ℚ)
    (perRec : Bool) (n : ℕ) (retry : ℕ) :
    ℕ → List String → List ResultRecord × Bool × List Call
  | _, [] => ([], true, [])
  | i, addr :: rest =>
    let a := recipientAmount amt perRec n
    let (rs, ok, cs) := fanout send user amt perRec n retry (i + 1) rest
    match send i with
    | .threw msg =>
      (⟨addr, none, Status.failed, some msg⟩ :: rs, false,
        Call.send user addr a retry :: cs)
    | .ret s tx e =>
      (⟨addr, tx, if s then Status.completed else Status.failed, e⟩ :: rs,
        ok && s, Call.send user addr a retry :: cs)

/-- The `try` block of `executeScheduledTransfer` (lines 11-111): either
a thrown error message, or the completed transfer together with the
result records; also returns the store as left by the block and the trace
of external calls made. -/
def executeAttempt (env : Env) (store : List Transfer) (tid : String) :
    Except String (Transfer × List ResultRecord) × List Transfer × List Call :=
  match env.findThrow1 with
  | some msg => (.error msg, store, [])
  | none =>
    match findById store tid with
    | none => (.error "Scheduled transfer not found", store, [])
    | some transfer =>
      if transfer.status = Status.scheduled then
        match env.auth with
        | .error msg => (.error msg, store, [])
        | .ok authCheck =>
          if authCheck.isValid then
            let recips := effectiveRecipients transfer
            let total := totalAmount transfer.amount transfer.amountPerRecipient recips.length
            if total > authCheck.maxAmount then
              (.error ("Total transfer amount " ++ toString total ++
                " exceeds authorized maximum " ++
                toString authCheck.maxAmount), store, [])
            else
              let t1 := { transfer with status := Status.executing }
              match env.saveThrowExecuting with
              | some msg => (.error msg, store, [])
              | none =>
                let store1 := saveById store t1
                let out := fanout env.send t1.userAddress t1.amount
                  t1.amountPerRecipient recips.length t1.retryLimit 0 recips
                let results := out.1
                let allSuccessful := out.2.1
                let calls := out.2.2
                if allSuccessful then
                  let t2 := { t1 with
                    status := Status.completed,
                    executedAt := some env.time,
                    transactionIds := some results,
                    transactionId :=
                      if recips.length == 1 then
                        results.head?.bind (fun r => r.transactionId)
                      else t1.transactionId }
                  match env.saveThrowCompleted with
                  | some msg => (.error msg, store1, calls)
                  | none =>
                    let store2 := saveById store1 t2
                    let calls2 := calls ++
                      (match t2.parentRecurringId with
                        | some pid => [Call.genNext pid]
                        | none => [])
                    (.ok (t2, results), store2, calls2)
                else
                  let failedCount :=
                    (results.filter (fun r => r.status == Status.failed)).length
                  (.error ("Some transfers failed: " ++ toString failedCount ++
                    "/" ++ toString recips.length), store1, calls)
          else
            (.error "User authorization is invalid or expired", store, [])
      else
        (.error ("Transfer status is " ++ transfer.status.toString ++
          ", cannot execute"), store, [])

/-- The `catch` block's failure-update (lines 116-126): re-fetch the
transfer and, when found, mark it `failed` with `executedAt` and the
error message; a rejection of this inner `findById` or `save` is itself
caught and leaves the store unchanged. -/
def failUpdate (env : Env) (store : List Transfer) (tid : String)
    (msg : String) : List Transfer :=
  match env.findThrow2 with
  | some _ => store
  | none =>
    match findById store tid with
    | none => store
    | some t =>
      match env.saveThrowFailed with
      | some _ => store
      | none =>
        saveById store { t with
          status := Status.failed,
          executedAt := some env.time,
          errorMessage := some msg }

/-- The public return value of `executeScheduledTransfer`:
`{success: true, transfer, results}` or `{success: false, error}`. -/
inductive ExecResult where
  | success (transfer : Transfer) (results : List ResultRecord)
  | failure (error : String)
deriving DecidableEq

/-- The `success` flag of an execution result. -/
def ExecResult.isSuccess : ExecResult → Bool
  | .success _ _ => true
  | .failure _ => false

/-- `executeScheduledTransfer(transferId)` (lines 10-133): run the `try`
block; on a thrown error run the failure-update and return
`{success: false, error}`, otherwise return
`{success: true, transfer, results}`. Returns (result, store, trace). -/
def executeScheduledTransfer (env : Env) (store : List Transfer)
    (tid : String) : ExecResult × List Transfer × List Call :=
  match executeAttempt env store tid with
  | (.ok (t, rs), s, cs) => (.success t rs, s, cs)
  | (.error msg, s, cs) => (.failure msg, failUpdate env s tid msg, cs)

/-- One entry of the `results` list built by `processDueTransfers`
(lines 161-165): the transfer id and title spread together with the
execution result. -/
structure PerTransferResult where
  transferId : String
  title : String
  result : ExecResult
deriving DecidableEq

/-- The value returned by `processDueTransfers`: the early
`{processed: 0, message}` object when nothing is due (lines 149-154), or
the full `{processed, successful, failed, results}` summary
(lines 173-178). -/
inductive ProcessOutcome where
  | empty (processed : ℕ) (message : String)
  | summary (processed : ℕ) (successful : ℕ) (failed : ℕ)
      (results : List PerTransferResult)
deriving DecidableEq

/-- Whether a `processDueTransfers` return value has the full
`{processed, successful, failed, results}` summary shape (as opposed to
the early `{processed: 0, message}` object). -/
def ProcessOutcome.isSummary : ProcessOutcome → Bool
  | .empty _ _ => false
  | .summary _ _ _ _ => true

/-- Oracle environment for one run of `processDueTransfers`: whether the
store query rejects, the current time, and the environment of the i-th
`executeScheduledTransfer` invocation. -/
structure PEnv where
  queryThrow : Option String
  now : ℤ
  execEnv : ℕ → Env

/-- Modelled from the spec: the due-transfer query of lines 144-147
(`find({status: scheduled, scheduledDate: {lte: now}}).sort(scheduledDate
ascending)`, spec section 4.3 `findDue`): the records with `status ==
scheduled` and `scheduledDate <= now`, sorted ascending by
`scheduledDate`. -/
def dueTransfers (store : List Transfer) (now : ℤ) : List Transfer :=
  List.insertionSort (fun a b => a.scheduledDate ≤ b.scheduledDate)
    (store.filter (fun t => t.status == Status.scheduled &&
      decide (t.scheduledDate ≤ now)))

/-- The sequential execution loop of lines 158-166: invoke
`executeScheduledTransfer` on each due transfer in order, threading the
store, collecting per-transfer results and concatenating traces. -/
def runDue (penv : PEnv) : ℕ → List Transfer → List Transfer →
    List PerTransferResult × List Transfer × List Call
  | _, [], store => ([], store, [])
  | i, t :: rest, store =>
    let out := executeScheduledTransfer (penv.execEnv i) store t.id
    let tail := runDue penv (i + 1) rest out.2.1
    (⟨t.id, t.title, out.1⟩ :: tail.1, tail.2.1, out.2.2 ++ tail.2.2)

/-- `processDueTransfers()` (lines 139-183): query the due transfers
(a query rejection is re-thrown to the caller, lines 179-182); when none
are due return `{processed: 0, message}`; otherwise execute each
sequentially and return `{processed, successful, failed, results}`. -/
def processDueTransfers (penv : PEnv) (store : List Transfer) :
    Except String (ProcessOutcome × List Transfer × List Call) :=
  match penv.queryThrow with
  | some msg => .error msg
  | none =>
    let due := dueTransfers store penv.now
    if due.length = 0 then
      .ok (.empty 0 "No due transfers to process", store, [])
    else
      let out := runDue penv 0 due store
      let successful := (out.1.filter (fun r => r.result.isSuccess)).length
      let failed := (out.1.filter (fun r => !r.result.isSuccess)).length
      .ok (.summary due.length successful failed out.1, out.2.1, out.2.2)

/-- The record as updated to `executing` and saved at lines 43-44. -/
def execT1 (t : Transfer) : Transfer := { t with status := Status.executing }

/-- The fan-out output of one execution of transfer `t`: the result
records, the `allSuccessful` flag and the send-call trace, as computed by
the loop of lines 47-81. -/
def fanoutOf (env : Env) (t : Transfer) :
    List ResultRecord × Bool × List Call :=
  fanout env.send t.userAddress t.amount t.amountPerRecipient
    (effectiveRecipients t).length t.retryLimit 0 (effectiveRecipients t)

/-- The record as persisted on the all-successful branch
(lines 84-90). -/
def completedOf (env : Env) (t : Transfer) : Transfer :=
  { t with
    status := Status.completed,
    executedAt := some env.time,
    transactionIds := some (fanoutOf env t).1,
    transactionId :=
      if (effectiveRecipients t).length == 1 then
        (fanoutOf env t).1.head?.bind (fun r => r.transactionId)
      else t.transactionId }

/-- The `Some transfers failed: k/n` message of line 110. -/
def failMsg (env : Env) (t : Transfer) : String :=
  "Some transfers failed: " ++
    toString (((fanoutOf env t).1.filter
      (fun r => r.status == Status.failed)).length) ++
    "/" ++ toString (effectiveRecipients t).length

/-- The record as persisted by the catch block (lines 119-121). -/
def failedOf (env : Env) (t : Transfer) (msg : String) : Transfer :=
  { t with
    status := Status.failed,
    executedAt := some env.time,
    errorMessage := some msg }

/-- The trailing Recurrence Expander invocation of lines 96-102: one
`generateNextInstance(parentRecurringId)` call when the transfer is
recurring, none otherwise. -/
def genNextCalls (t : Transfer) : List Call :=
  match t.parentRecurringId with
  | some pid => [Call.genNext pid]
  | none => []

/-! ### Concrete fixtures -/

/-- Fixture: a freshly created single-recipient scheduled transfer. -/
def sampleTransfer : Transfer :=
  { id := "t1", userAddress := "0xuser", title := "rent",
    recipient := "0xr1", recipients := [], amount := 50,
    amountPerRecipient := false, retryLimit := 3,
    parentRecurringId := none, scheduledDate := 0,
    status := Status.scheduled, executedAt := none, errorMessage := none,
    transactionIds := none, transactionId := none }

/-- Fixture: an environment in which nothing rejects, the authorization
is valid with maximum 100, and every on-chain send succeeds. -/
def sampleEnv : Env :=
  { auth := Except.ok ⟨true, 100⟩,
    send := fun i => SendOutcome.ret true (some ("tx_" ++ toString i)) none,
    genNext := Except.ok (), findThrow1 := none, findThrow2 := none,
    saveThrowExecuting := none, saveThrowCompleted := none,
    saveThrowFailed := none, time := 7 }

/-- Fixture: like `sampleEnv` but the authorization maximum is 10,
below the sample transfer's amount of 50. -/
def lowMaxEnv : Env := { sampleEnv with auth := Except.ok ⟨true, 10⟩ }

/-- Fixture: the sample transfer already in terminal `completed`
status. -/
def completedTransfer : Transfer :=
  { sampleTransfer with id := "t2", status := Status.completed }

/-- Fixture: a two-recipient transfer sending 10 to each recipient. -/
def twoRecipTransfer : Transfer :=
  { sampleTransfer with
    id := "t3"
    recipients := ["0xa", "0xb"]
    amount := 10
    amountPerRecipient := true }

/-- Fixture: the first send succeeds with transaction id `tx1`, the
second resolves unsuccessfully. -/
def partialFailEnv : Env :=
  { sampleEnv with
    send := fun i =>
      if i = 0 then SendOutcome.ret true (some "tx1") none
      else SendOutcome.ret false none (some "insufficient funds") }

/-- Fixture: total 30 split evenly over three recipients. -/
def splitTransfer : Transfer :=
  { sampleTransfer with
    id := "t5"
    recipients := ["A", "B", "C"]
    amount := 30 }

/-- Fixture: a recurring instance pointing back at parent `rec1`. -/
def recurTransfer : Transfer :=
  { sampleTransfer with id := "t9", parentRecurringId := some "rec1" }

/-- Fixture: like `sampleEnv` but the Recurrence Expander rejects. -/
def expanderDownEnv : Env :=
  { sampleEnv with genNext := Except.error "expander down" }

/-- Fixture: a scheduler environment at `now = 0` whose store query
succeeds and whose executions use `sampleEnv`. -/
def samplePEnv : PEnv :=
  { queryThrow := none, now := 0, execEnv := fun _ => sampleEnv }

/-- Fixture: a transfer due 10 time units in the past. -/
def dueA : Transfer := { sampleTransfer with id := "a", scheduledDate := -10 }

/-- Fixture: a transfer due 5 time units in the past. -/
def dueB : Transfer := { sampleTransfer with id := "b", scheduledDate := -5 }

/-- Fixture: a transfer due 5 time units in the future. -/
def futureC : Transfer := { sampleTransfer with id := "c", scheduledDate := 5 }

/-! ### Basic store lemmas -/

theorem findById_nil (tid : String) : findById [] tid = none := rfl

theorem findById_cons (x : Transfer) (xs : List Transfer) (tid : String) :
    findById (x :: xs) tid =
      if x.id = tid then some x else findById xs tid := by
  rw [findById, List.find?_cons]
  by_cases h : x.id = tid
  · have hb : (x.id == tid) = true := by simpa using h
    rw [hb, if_pos h]
  · have hb : (x.id == tid) = false := by simpa using h
    rw [hb, if_neg h]
    rfl

theorem saveById_nil (t : Transfer) : saveById [] t = [] := rfl

theorem saveById_cons (x : Transfer) (xs : List Transfer) (t : Transfer) :
    saveById (x :: xs) t =
      (if x.id = t.id then t else x) :: saveById xs t := by
  rw [saveById, List.map_cons]
  by_cases h : x.id = t.id
  · have hb : (x.id == t.id) = true := by simpa using h
    rw [if_pos h]
    show (if x.id == t.id then t else x) :: _ = _
    rw [if_pos hb]
    rfl
  · have hb : ¬ (x.id == t.id) = true := by simpa using h
    rw [if_neg h]
    show (if x.id == t.id then t else x) :: _ = _
    rw [if_neg hb]
    rfl

theorem findById_id_eq {store : List Transfer} {tid : String} {t : Transfer}
    (h : findById store tid = some t) : t.id = tid := by
  have h' := List.find?_some h
  simpa using h'

theorem findById_saveById_of_ne {uid : String} (store : List Transfer)
    (t : Transfer) (h : t.id ≠ uid) :
    findById (saveById store t) uid = findById store uid := by
  induction store with
  | nil => rfl
  | cons x xs ih =>
    rw [saveById_cons, findById_cons, findById_cons]
    by_cases hx : x.id = t.id
    · rw [if_pos hx, if_neg h, if_neg (hx ▸ h), ih]
    · rw [if_neg hx, ih]

theorem findById_saveById_self {store : List Transfer} {tid : String}
    {t : Transfer} (h : findById store tid = some t)
    (t' : Transfer) (hid : t'.id = tid) :
    findById (saveById store t') tid = some t' := by
  induction store with
  | nil => simp [findById] at h
  | cons x xs ih =>
    rw [saveById_cons, findById_cons]
    by_cases hx : x.id = t'.id
    · rw [if_pos hx, if_pos hid]
    · rw [if_neg hx, if_neg (fun hEq => hx (hid ▸ hEq))]
      rw [findById_cons, if_neg (fun hEq => hx (hid ▸ hEq))] at h
      exact ih h

theorem findById_of_mem_nodup {store : List Transfer} {u : Transfer}
    (hmem : u ∈ store) (hnodup : (store.map Transfer.id).Nodup) :
    findById store u.id = some u := by
  induction store with
  | nil => simp at hmem
  | cons x xs ih =>
    simp only [List.map_cons, List.nodup_cons] at hnodup
    rcases List.mem_cons.mp hmem with rfl | hmem'
    · rw [findById_cons, if_pos rfl]
    · have hne : x.id ≠ u.id := by
        intro hEq
        exact hnodup.1 (hEq ▸ List.mem_map_of_mem Transfer.id hmem')
      rw [findById_cons, if_neg hne]
      exact ih hmem' hnodup.2

/-! ### Fan-out characterization -/

theorem fanout_results (send : ℕ → SendOutcome) (user : String) (amt : ℚ)
    (perRec : Bool) (n retry : ℕ) :
    ∀ (i : ℕ) (recips : List String),
      (fanout send user amt perRec n retry i recips).1 =
        (List.enumFrom i recips).map (fun p => resultOf p.2 (send p.1)) := by
  intro i recips
  induction recips generalizing i with
  | nil => rfl
  | cons a rest ih =>
    simp only [fanout, List.enumFrom, List.map_cons]
    cases hsend : send i with
    | threw msg => simp [resultOf, hsend, ih]
    | ret s tx e => simp [resultOf, hsend, ih]

theorem fanout_calls (send : ℕ → SendOutcome) (user : String) (amt : ℚ)
    (perRec : Bool) (n retry : ℕ) :
    ∀ (i : ℕ) (recips : List String),
      (fanout send user amt perRec n retry i recips).2.2 =
        (List.enumFrom i recips).map
          (fun p => Call.send user p.2 (recipientAmount amt perRec n) retry) := by
  intro i recips
  induction recips generalizing i with
  | nil => rfl
  | cons a rest ih =>
    simp only [fanout, List.enumFrom, List.map_cons]
    cases hsend : send i with
    | threw msg => simp [ih]
    | ret s tx e => simp [ih]

theorem fanout_ok (send : ℕ → SendOutcome) (user : String) (amt : ℚ)
    (perRec : Bool) (n retry : ℕ) :
    ∀ (i : ℕ) (recips : List String),
      (fanout send user amt perRec n retry i recips).2.1 =
        (List.enumFrom i recips).all (fun p => (send p.1).succeeded) := by
  intro i recips
  induction recips generalizing i with
  | nil => rfl
  | cons a rest ih =>
    simp only [fanout, List.enumFrom, List.all_cons]
    cases hsend : send i with
    | threw msg => simp [SendOutcome.succeeded, hsend]
    | ret s tx e =>
      simp [SendOutcome.succeeded, hsend, ih, Bool.and_comm]

/-! ### Scenario lemmas for one execution -/

theorem failUpdate_eq {env : Env} {store : List Transfer} {tid : String}
    {t : Transfer} (h2 : env.findThrow2 = none)
    (hf : findById store tid = some t) (h3 : env.saveThrowFailed = none)
    (msg : String) :
    failUpdate env store tid msg = saveById store (failedOf env t msg) := by
  simp only [failUpdate, h2, hf, h3, failedOf]

theorem executeAttempt_find_throw {env : Env} {store : List Transfer}
    {tid : String} {msg : String} (h1 : env.findThrow1 = some msg) :
    executeAttempt env store tid = (.error msg, store, []) := by
  simp only [executeAttempt, h1]

theorem executeAttempt_not_found {env : Env} {store : List Transfer}
    {tid : String} (h1 : env.findThrow1 = none)
    (hf : findById store tid = none) :
    executeAttempt env store tid =
      (.error "Scheduled transfer not found", store, []) := by
  simp only [executeAttempt, h1, hf]

theorem executeAttempt_invalid_state {env : Env} {store : List Transfer}
    {tid : String} {t : Transfer} (h1 : env.findThrow1 = none)
    (hf : findById store tid = some t) (hs : t.status ≠ Status.scheduled) :
    executeAttempt env store tid =
      (.error ("Transfer status is " ++ t.status.toString ++
        ", cannot execute"), store, []) := by
  simp only [executeAttempt, h1, hf]
  rw [if_neg hs]

theorem executeAttempt_auth_throw {env : Env} {store : List Transfer}
    {tid : String} {t : Transfer} {msg : String}
    (h1 : env.findThrow1 = none) (hf : findById store tid = some t)
    (hs : t.status = Status.scheduled) (ha : env.auth = Except.error msg) :
    executeAttempt env store tid = (.error msg, store, []) := by
  simp only [executeAttempt, h1, hf, hs, ha, reduceIte]

theorem executeAttempt_auth_invalid {env : Env} {store : List Transfer}
    {tid : String} {t : Transfer} {ac : AuthCheck}
    (h1 : env.findThrow1 = none) (hf : findById store tid = some t)
    (hs : t.status = Status.scheduled) (ha : env.auth = Except.ok ac)
    (hv : ac.isValid = false) :
    executeAttempt env store tid =
      (.error "User authorization is invalid or expired", store, []) := by
  simp only [executeAttempt, h1, hf, hs, ha, hv, reduceIte,
    Bool.false_eq_true]

theorem executeAttempt_exceeds {env : Env} {store : List Transfer}
    {tid : String} {t : Transfer} {ac : AuthCheck}
    (h1 : env.findThrow1 = none) (hf : findById store tid = some t)
    (hs : t.status = Status.scheduled) (ha : env.auth = Except.ok ac)
    (hv : ac.isValid = true)
    (hx : totalAmount t.amount t.amountPerRecipient
      (effectiveRecipients t).length > ac.maxAmount) :
    executeAttempt env store tid =
      (.error ("Total transfer amount " ++ toString (totalAmount t.amount
          t.amountPerRecipient (effectiveRecipients t).length) ++
        " exceeds authorized maximum " ++ toString ac.maxAmount),
        store, []) := by
  simp only [executeAttempt, h1, hf, hs, ha, hv, reduceIte]
  rw [if_pos hx]

theorem executeAttempt_all_success {env : Env} {store : List Transfer}
    {tid : String} {t : Transfer} {ac : AuthCheck}
    (h1 : env.findThrow1 = none) (hf : findById store tid = some t)
    (hs : t.status = Status.scheduled) (ha : env.auth = Except.ok ac)
    (hv : ac.isValid = true)
    (hx : ¬ totalAmount t.amount t.amountPerRecipient
      (effectiveRecipients t).length > ac.maxAmount)
    (hse : env.saveThrowExecuting = none)
    (hall : (fanoutOf env t).2.1 = true)
    (hsc : env.saveThrowCompleted = none) :
    executeAttempt env store tid =
      (.ok (completedOf env t, (fanoutOf env t).1),
        saveById (saveById store (execT1 t)) (completedOf env t),
        (fanoutOf env t).2.2 ++ genNextCalls t) := by
  have hall' : (fanout env.send t.userAddress t.amount t.amountPerRecipient
      (effectiveRecipients t).length t.retryLimit 0
      (effectiveRecipients t)).2.1 = true := hall
  simp only [executeAttempt, h1, hf, hs, ha, hv, reduceIte]
  rw [if_neg hx]
  simp only [execT1, hse, hall', completedOf, fanoutOf, genNextCalls,
    hsc, reduceIte]

theorem executeAttempt_some_fail {env : Env} {store : List Transfer}
    {tid : String} {t : Transfer} {ac : AuthCheck}
    (h1 : env.findThrow1 = none) (hf : findById store tid = some t)
    (hs : t.status = Status.scheduled) (ha : env.auth = Except.ok ac)
    (hv : ac.isValid = true)
    (hx : ¬ totalAmount t.amount t.amountPerRecipient
      (effectiveRecipients t).length > ac.maxAmount)
    (hse : env.saveThrowExecuting = none)
    (hfail : (fanoutOf env t).2.1 = false) :
    executeAttempt env store tid =
      (.error (failMsg env t), saveById store (execT1 t),
        (fanoutOf env t).2.2) := by
  have hfail' : (fanout env.send t.userAddress t.amount t.amountPerRecipient
      (effectiveRecipients t).length t.retryLimit 0
      (effectiveRecipients t)).2.1 = false := hfail
  simp only [executeAttempt, h1, hf, hs, ha, hv, reduceIte]
  rw [if_neg hx]
  simp only [execT1, hse, hfail', failMsg, fanoutOf, reduceIte,
    Bool.false_eq_true]

theorem executeAttempt_save_executing_throw {env : Env}
    {store : List Transfer} {tid : String} {t : Transfer} {ac : AuthCheck}
    {msg : String}
    (h1 : env.findThrow1 = none) (hf : findById store tid = some t)
    (hs : t.status = Status.scheduled) (ha : env.auth = Except.ok ac)
    (hv : ac.isValid = true)
    (hx : ¬ totalAmount t.amount t.amountPerRecipient
      (effectiveRecipients t).length > ac.maxAmount)
    (hse : env.saveThrowExecuting = some msg) :
    executeAttempt env store tid = (.error msg, store, []) := by
  simp only [executeAttempt, h1, hf, hs, ha, hv, reduceIte]
  rw [if_neg hx]
  simp only [hse]

theorem executeAttempt_save_completed_throw {env : Env}
    {store : List Transfer} {tid : String} {t : Transfer} {ac : AuthCheck}
    {msg : String}
    (h1 : env.findThrow1 = none) (hf : findById store tid = some t)
    (hs : t.status = Status.scheduled) (ha : env.auth = Except.ok ac)
    (hv : ac.isValid = true)
    (hx : ¬ totalAmount t.amount t.amountPerRecipient
      (effectiveRecipients t).length > ac.maxAmount)
    (hse : env.saveThrowExecuting = none)
    (hall : (fanoutOf env t).2.1 = true)
    (hsc : env.saveThrowCompleted = some msg) :
    executeAttempt env store tid =
      (.error msg, saveById store (execT1 t), (fanoutOf env t).2.2) := by
  have hall' : (fanout env.send t.userAddress t.amount t.amountPerRecipient
      (effectiveRecipients t).length t.retryLimit 0
      (effectiveRecipients t)).2.1 = true := hall
  simp only [executeAttempt, h1, hf, hs, ha, hv, reduceIte]
  rw [if_neg hx]
  simp only [execT1, hse, hall', fanoutOf, hsc, reduceIte]

theorem execT1_id (t : Transfer) : (execT1 t).id = t.id := rfl

theorem completedOf_id (env : Env) (t : Transfer) :
    (completedOf env t).id = t.id := rfl

theorem failedOf_id (env : Env) (t : Transfer) (msg : String) :
    (failedOf env t msg).id = t.id := rfl

/-! ### Frame lemmas: an execution only writes the record it executes -/

theorem executeAttempt_findById_ne {env : Env} {store : List Transfer}
    {tid uid : String} (hne : uid ≠ tid) :
    findById (executeAttempt env store tid).2.1 uid = findById store uid := by
  cases h1 : env.findThrow1 with
  | some msg => rw [executeAttempt_find_throw h1]
  | none =>
  cases hf : findById store tid with
  | none => rw [executeAttempt_not_found h1 hf]
  | some t =>
  have hid : t.id ≠ uid := by
    rw [findById_id_eq hf]; exact Ne.symm hne
  by_cases hs : t.status = Status.scheduled
  case neg => rw [executeAttempt_invalid_state h1 hf hs]
  cases ha : env.auth with
  | error msg => rw [executeAttempt_auth_throw h1 hf hs ha]
  | ok ac =>
  cases hv : ac.isValid with
  | false => rw [executeAttempt_auth_invalid h1 hf hs ha hv]
  | true =>
  by_cases hx : totalAmount t.amount t.amountPerRecipient
      (effectiveRecipients t).length > ac.maxAmount
  case pos => rw [executeAttempt_exceeds h1 hf hs ha hv hx]
  cases hse : env.saveThrowExecuting with
  | some msg => rw [executeAttempt_save_executing_throw h1 hf hs ha hv hx hse]
  | none =>
  cases hall : (fanoutOf env t).2.1 with
  | false =>
    rw [executeAttempt_some_fail h1 hf hs ha hv hx hse hall]
    exact findById_saveById_of_ne store (execT1 t) hid
  | true =>
  cases hsc : env.saveThrowCompleted with
  | some msg =>
    rw [executeAttempt_save_completed_throw h1 hf hs ha hv hx hse hall hsc]
    exact findById_saveById_of_ne store (execT1 t) hid
  | none =>
    rw [executeAttempt_all_success h1 hf hs ha hv hx hse hall hsc]
    rw [show (((.ok (completedOf env t, (fanoutOf env t).1),
        saveById (saveById store (execT1 t)) (completedOf env t),
        (fanoutOf env t).2.2 ++ genNextCalls t) : Except String (Transfer × List ResultRecord) × List Transfer × List Call)).2.1
      = saveById (saveById store (execT1 t)) (completedOf env t) from rfl]
    rw [findById_saveById_of_ne _ (completedOf env t) hid]
    exact findById_saveById_of_ne store (execT1 t) hid

theorem failUpdate_findById_ne {env : Env} {store : List Transfer}
    {tid uid : String} {msg : String} (hne : uid ≠ tid) :
    findById (failUpdate env store tid msg) uid = findById store uid := by
  cases h2 : env.findThrow2 with
  | some m => simp [failUpdate, h2]
  | none =>
  cases hf : findById store tid with
  | none => simp [failUpdate, h2, hf]
  | some t =>
  cases h3 : env.saveThrowFailed with
  | some m => simp [failUpdate, h2, hf, h3]
  | none =>
    simp only [failUpdate, h2, hf, h3]
    refine findById_saveById_of_ne store _ ?_
    show t.id ≠ uid
    rw [findById_id_eq hf]
    exact Ne.symm hne

theorem executeScheduledTransfer_findById_ne {env : Env}
    {store : List Transfer} {tid uid : String} (hne : uid ≠ tid) :
    findById (executeScheduledTransfer env store tid).2.1 uid =
      findById store uid := by
  have hAtt := @executeAttempt_findById_ne env store tid uid hne
  unfold executeScheduledTransfer
  cases hA : executeAttempt env store tid with
  | mk r p =>
    obtain ⟨s, cs⟩ := p
    rw [hA] at hAtt
    cases r with
    | ok pr =>
      obtain ⟨t, rs⟩ := pr
      exact hAtt
    | error msg =>
      rw [show ((ExecResult.failure msg, failUpdate env s tid msg, cs)).2.1
        = failUpdate env s tid msg from rfl]
      rw [failUpdate_findById_ne hne]
      exact hAtt

/-! ### Top-level execution lemmas -/

theorem executeScheduledTransfer_of_attempt_ok {env : Env}
    {store s : List Transfer} {tid : String} {t : Transfer}
    {rs : List ResultRecord} {cs : List Call}
    (hA : executeAttempt env store tid = (.ok (t, rs), s, cs)) :
    executeScheduledTransfer env store tid = (.success t rs, s, cs) := by
  unfold executeScheduledTransfer
  rw [hA]

theorem executeScheduledTransfer_of_attempt_error {env : Env}
    {store s : List Transfer} {tid : String} {msg : String}
    {cs : List Call}
    (hA : executeAttempt env store tid = (.error msg, s, cs)) :
    executeScheduledTransfer env store tid =
      (.failure msg, failUpdate env s tid msg, cs) := by
  unfold executeScheduledTransfer
  rw [hA]

theorem executeScheduledTransfer_all_success {env : Env}
    {store : List Transfer} {tid : String} {t : Transfer} {ac : AuthCheck}
    (h1 : env.findThrow1 = none) (hf : findById store tid = some t)
    (hs : t.status = Status.scheduled) (ha : env.auth = Except.ok ac)
    (hv : ac.isValid = true)
    (hx : ¬ totalAmount t.amount t.amountPerRecipient
      (effectiveRecipients t).length > ac.maxAmount)
    (hse : env.saveThrowExecuting = none)
    (hall : (fanoutOf env t).2.1 = true)
    (hsc : env.saveThrowCompleted = none) :
    executeScheduledTransfer env store tid =
      (.success (completedOf env t) (fanoutOf env t).1,
        saveById (saveById store (execT1 t)) (completedOf env t),
        (fanoutOf env t).2.2 ++ genNextCalls t) :=
  executeScheduledTransfer_of_attempt_ok
    (executeAttempt_all_success h1 hf hs ha hv hx hse hall hsc)

/-- A pre-flight failure (any throw before the `executing` save): the
catch block re-fetches the untouched record and persists it as
`failed`. -/
theorem executeScheduledTransfer_preflight {env : Env}
    {store : List Transfer} {tid : String} {t : Transfer} {msg : String}
    (hA : executeAttempt env store tid = (.error msg, store, []))
    (hf : findById store tid = some t)
    (h2 : env.findThrow2 = none) (h3 : env.saveThrowFailed = none) :
    executeScheduledTransfer env store tid =
      (.failure msg, saveById store (failedOf env t msg), []) := by
  rw [executeScheduledTransfer_of_attempt_error hA,
    failUpdate_eq h2 hf h3]

theorem executeScheduledTransfer_some_fail {env : Env}
    {store : List Transfer} {tid : String} {t : Transfer} {ac : AuthCheck}
    (h1 : env.findThrow1 = none) (hf : findById store tid = some t)
    (hs : t.status = Status.scheduled) (ha : env.auth = Except.ok ac)
    (hv : ac.isValid = true)
    (hx : ¬ totalAmount t.amount t.amountPerRecipient
      (effectiveRecipients t).length > ac.maxAmount)
    (hse : env.saveThrowExecuting = none)
    (hfail : (fanoutOf env t).2.1 = false)
    (h2 : env.findThrow2 = none) (h3 : env.saveThrowFailed = none) :
    executeScheduledTransfer env store tid =
      (.failure (failMsg env t),
        saveById (saveById store (execT1 t))
          (failedOf env (execT1 t) (failMsg env t)),
        (fanoutOf env t).2.2) := by
  rw [executeScheduledTransfer_of_attempt_error
    (executeAttempt_some_fail h1 hf hs ha hv hx hse hfail)]
  have hfind1 : findById (saveById store (execT1 t)) tid = some (execT1 t) :=
    findById_saveById_self hf (execT1 t)
      (by rw [execT1_id]; exact findById_id_eq hf)
  rw [failUpdate_eq h2 hfind1 h3]

/-! ### Lemmas about the due-transfer batch -/

theorem mem_dueTransfers {store : List Transfer} {now : ℤ} {t : Transfer} :
    t ∈ dueTransfers store now ↔
      t ∈ store ∧ t.status = Status.scheduled ∧ t.scheduledDate ≤ now := by
  unfold dueTransfers
  rw [(List.perm_insertionSort _ _).mem_iff, List.mem_filter]
  simp [and_assoc]

theorem dueTransfers_sorted (store : List Transfer) (now : ℤ) :
    (dueTransfers store now).Sorted
      (fun a b => a.scheduledDate ≤ b.scheduledDate) := by
  haveI : IsTotal Transfer (fun a b => a.scheduledDate ≤ b.scheduledDate) :=
    ⟨fun a b => le_total a.scheduledDate b.scheduledDate⟩
  haveI : IsTrans Transfer (fun a b => a.scheduledDate ≤ b.scheduledDate) :=
    ⟨fun _ _ _ h1 h2 => le_trans h1 h2⟩
  exact List.sorted_insertionSort _ _

theorem runDue_ids (penv : PEnv) :
    ∀ (i : ℕ) (l : List Transfer) (store : List Transfer),
      (runDue penv i l store).1.map PerTransferResult.transferId =
        l.map Transfer.id := by
  intro i l
  induction l generalizing i with
  | nil => intro store; rfl
  | cons t rest ih =>
    intro store
    simp only [runDue, List.map_cons, List.cons.injEq]
    exact ⟨trivial, ih (i + 1) _⟩

theorem runDue_findById_ne (penv : PEnv) {uid : String} :
    ∀ (i : ℕ) (l : List Transfer) (store : List Transfer),
      (∀ t ∈ l, uid ≠ t.id) →
      findById (runDue penv i l store).2.1 uid = findById store uid := by
  intro i l
  induction l generalizing i with
  | nil => intro store _; rfl
  | cons t rest ih =>
    intro store hl
    simp only [runDue]
    rw [ih (i + 1) _ (fun u hu => hl u (List.mem_cons_of_mem t hu))]
    exact executeScheduledTransfer_findById_ne (hl t (List.mem_cons_self t rest))

theorem take_append_eq_left {α : Type} {l1 l2 : List α} {n : ℕ}
    (h : l1.length = n) : (l1 ++ l2).take n = l1 := by
  subst h
  exact List.take_left _ _

theorem length_filter_add_length_filter_not {α : Type} (l : List α)
    (p : α → Bool) :
    (l.filter p).length + (l.filter (fun a => !p a)).length = l.length := by
  induction l with
  | nil => rfl
  | cons x xs ih =>
    by_cases h : p x <;> simp [List.filter, h] <;> omega

theorem processDueTransfers_query_throw {penv : PEnv}
    {store : List Transfer} {msg : String}
    (hq : penv.queryThrow = some msg) :
    processDueTransfers penv store = .error msg := by
  simp only [processDueTransfers, hq]

theorem processDueTransfers_none_due {penv : PEnv} {store : List Transfer}
    (hq : penv.queryThrow = none) (hdue : dueTransfers store penv.now = []) :
    processDueTransfers penv store =
      .ok (.empty 0 "No due transfers to process", store, []) := by
  simp only [processDueTransfers, hq, hdue]
  rfl

theorem processDueTransfers_some_due {penv : PEnv} {store : List Transfer}
    (hq : penv.queryThrow = none)
    (hdue : dueTransfers store penv.now ≠ []) :
    processDueTransfers penv store =
      .ok (.summary (dueTransfers store penv.now).length
          (((runDue penv 0 (dueTransfers store penv.now) store).1.filter
            (fun r => r.result.isSuccess)).length)
          (((runDue penv 0 (dueTransfers store penv.now) store).1.filter
            (fun r => !r.result.isSuccess)).length)
          (runDue penv 0 (dueTransfers store penv.now) store).1,
        (runDue penv 0 (dueTransfers store penv.now) store).2.1,
        (runDue penv 0 (dueTransfers store penv.now) store).2.2) := by
  have hlen : ¬ (dueTransfers store penv.now).length = 0 := by
    simpa [List.length_eq_zero] using hdue
  simp only [processDueTransfers, hq]
  rw [if_neg hlen]

/-! ### Claims -/

/-- C1, counterexample: for the sample scheduled transfer (amount 50)
under a valid authorization with maxAmount 10, `executeScheduledTransfer`
attempts no recipient sends (the trace is empty), but after it returns
the stored status is `failed`, not `scheduled`: the ExceedsAuthorization
failure does terminalize the record, refuting the claim as stated. -/
theorem C1_counterexample :
    (executeScheduledTransfer lowMaxEnv [sampleTransfer] "t1").2.2 = [] ∧
    (findById (executeScheduledTransfer lowMaxEnv [sampleTransfer] "t1").2.1
      "t1").map Transfer.status = some Status.failed ∧
    (findById (executeScheduledTransfer lowMaxEnv [sampleTransfer] "t1").2.1
      "t1").map Transfer.status ≠ some Status.scheduled := by
  with_unfolding_all decide

/-- C1, amended: for every transfer in status `scheduled` whose
authorization is valid but whose computed totalAmount exceeds the
authorization's maxAmount, `executeScheduledTransfer` attempts no
recipient sends, but the failure is terminal: the catch-all handler
persists the record with status `failed`, `executedAt` and the error
message (when the failure-update itself does not reject). -/
theorem C1_exceeds_is_terminal (env : Env) (store : List Transfer)
    (tid : String) (t : Transfer) (ac : AuthCheck)
    (h1 : env.findThrow1 = none) (hf : findById store tid = some t)
    (hs : t.status = Status.scheduled) (ha : env.auth = Except.ok ac)
    (hv : ac.isValid = true)
    (hx : totalAmount t.amount t.amountPerRecipient
      (effectiveRecipients t).length > ac.maxAmount)
    (h2 : env.findThrow2 = none) (h3 : env.saveThrowFailed = none) :
    (executeScheduledTransfer env store tid).2.2 = [] ∧
    (executeScheduledTransfer env store tid).1 =
      .failure ("Total transfer amount " ++ toString (totalAmount t.amount
          t.amountPerRecipient (effectiveRecipients t).length) ++
        " exceeds authorized maximum " ++ toString ac.maxAmount) ∧
    findById (executeScheduledTransfer env store tid).2.1 tid =
      some (failedOf env t ("Total transfer amount " ++
        toString (totalAmount t.amount t.amountPerRecipient
          (effectiveRecipients t).length) ++
        " exceeds authorized maximum " ++ toString ac.maxAmount)) ∧
    (findById (executeScheduledTransfer env store tid).2.1 tid).map
      Transfer.status = some Status.failed := by
  have hE := executeScheduledTransfer_preflight
    (executeAttempt_exceeds h1 hf hs ha hv hx) hf h2 h3
  rw [hE]
  have hfind : findById (saveById store (failedOf env t
      ("Total transfer amount " ++ toString (totalAmount t.amount
        t.amountPerRecipient (effectiveRecipients t).length) ++
      " exceeds authorized maximum " ++ toString ac.maxAmount))) tid =
      some (failedOf env t ("Total transfer amount " ++
        toString (totalAmount t.amount t.amountPerRecipient
          (effectiveRecipients t).length) ++
        " exceeds authorized maximum " ++ toString ac.maxAmount)) :=
    findById_saveById_self hf _
      (by rw [failedOf_id]; exact findById_id_eq hf)
  refine ⟨rfl, rfl, hfind, ?_⟩
  show (findById (saveById store (failedOf env t
      ("Total transfer amount " ++ toString (totalAmount t.amount
        t.amountPerRecipient (effectiveRecipients t).length) ++
      " exceeds authorized maximum " ++ toString ac.maxAmount))) tid).map
    Transfer.status = some Status.failed
  rw [hfind]
  rfl

/-- C1, witness: the amended theorem applied to the concrete
low-maximum fixture. -/
theorem C1_witness :
    (executeScheduledTransfer lowMaxEnv [sampleTransfer] "t1").2.2 = [] ∧
    (executeScheduledTransfer lowMaxEnv [sampleTransfer] "t1").1 =
      .failure ("Total transfer amount " ++
        toString (totalAmount sampleTransfer.amount
          sampleTransfer.amountPerRecipient
          (effectiveRecipients sampleTransfer).length) ++
        " exceeds authorized maximum " ++ toString (10 : ℚ)) ∧
    findById (executeScheduledTransfer lowMaxEnv [sampleTransfer] "t1").2.1
      "t1" = some (failedOf lowMaxEnv sampleTransfer
        ("Total transfer amount " ++
          toString (totalAmount sampleTransfer.amount
            sampleTransfer.amountPerRecipient
            (effectiveRecipients sampleTransfer).length) ++
          " exceeds authorized maximum " ++ toString (10 : ℚ))) ∧
    (findById (executeScheduledTransfer lowMaxEnv [sampleTransfer] "t1").2.1
      "t1").map Transfer.status = some Status.failed :=
  C1_exceeds_is_terminal lowMaxEnv [sampleTransfer] "t1" sampleTransfer
    ⟨true, 10⟩ rfl (by with_unfolding_all rfl) rfl rfl rfl
    (by with_unfolding_all decide) rfl rfl

/-- C2, counterexample: executing the already-`completed` fixture
returns the InvalidState-style error, but the stored record is changed:
its status becomes `failed`, refuting "performs no persistence write". -/
theorem C2_counterexample :
    (executeScheduledTransfer sampleEnv [completedTransfer] "t2").1 =
      ExecResult.failure "Transfer status is completed, cannot execute" ∧
    findById (executeScheduledTransfer sampleEnv [completedTransfer]
      "t2").2.1 "t2" ≠ some completedTransfer ∧
    (findById (executeScheduledTransfer sampleEnv [completedTransfer]
      "t2").2.1 "t2").map Transfer.status = some Status.failed := by
  with_unfolding_all decide

/-- C2, amended: for every transfer whose status is not `scheduled`,
`executeScheduledTransfer` returns the `Transfer status is ..., cannot
execute` error and attempts no sends, but it does write: the catch-all
handler persists the record with status `failed`, `executedAt` and the
error message (when the failure-update itself does not reject). -/
theorem C2_invalid_state_writes (env : Env) (store : List Transfer)
    (tid : String) (t : Transfer)
    (h1 : env.findThrow1 = none) (hf : findById store tid = some t)
    (hs : t.status ≠ Status.scheduled)
    (h2 : env.findThrow2 = none) (h3 : env.saveThrowFailed = none) :
    (executeScheduledTransfer env store tid).1 =
      .failure ("Transfer status is " ++ t.status.toString ++
        ", cannot execute") ∧
    (executeScheduledTransfer env store tid).2.2 = [] ∧
    findById (executeScheduledTransfer env store tid).2.1 tid =
      some (failedOf env t ("Transfer status is " ++ t.status.toString ++
        ", cannot execute")) ∧
    (failedOf env t ("Transfer status is " ++ t.status.toString ++
      ", cannot execute")).status = Status.failed := by
  have hE := executeScheduledTransfer_preflight
    (executeAttempt_invalid_state h1 hf hs) hf h2 h3
  rw [hE]
  exact ⟨rfl, rfl,
    findById_saveById_self hf _
      (by rw [failedOf_id]; exact findById_id_eq hf), rfl⟩

/-- C2, witness: the amended theorem applied to the `completed`
fixture. -/
theorem C2_witness :
    (executeScheduledTransfer sampleEnv [completedTransfer] "t2").1 =
      .failure ("Transfer status is " ++
        completedTransfer.status.toString ++ ", cannot execute") ∧
    (executeScheduledTransfer sampleEnv [completedTransfer] "t2").2.2 = [] ∧
    findById (executeScheduledTransfer sampleEnv [completedTransfer]
      "t2").2.1 "t2" = some (failedOf sampleEnv completedTransfer
        ("Transfer status is " ++ completedTransfer.status.toString ++
          ", cannot execute")) ∧
    (failedOf sampleEnv completedTransfer ("Transfer status is " ++
      completedTransfer.status.toString ++ ", cannot execute")).status =
      Status.failed :=
  C2_invalid_state_writes sampleEnv [completedTransfer] "t2"
    completedTransfer rfl (by with_unfolding_all rfl)
    (by with_unfolding_all decide) rfl rfl

/-- C3, counterexample: on the two-recipient fixture where the first
send succeeds with transaction id `tx1` and the second fails, the final
status is `failed`, but the persisted record's result list is untouched
(`transactionIds` is still `none`): the successful transaction id is NOT
present in any stored result list, refuting the claim as stated. The
trace shows both sends were attempted and no compensating call was
made. -/
theorem C3_counterexample :
    (findById (executeScheduledTransfer partialFailEnv [twoRecipTransfer]
      "t3").2.1 "t3").map Transfer.status = some Status.failed ∧
    (findById (executeScheduledTransfer partialFailEnv [twoRecipTransfer]
      "t3").2.1 "t3").map Transfer.transactionIds = some none ∧
    (executeScheduledTransfer partialFailEnv [twoRecipTransfer] "t3").2.2 =
      [Call.send "0xuser" "0xa" 10 3, Call.send "0xuser" "0xb" 10 3] ∧
    (executeScheduledTransfer partialFailEnv [twoRecipTransfer] "t3").1 =
      ExecResult.failure "Some transfers failed: 1/2" := by
  with_unfolding_all decide

/-- C3, amended: for every transfer with at least one failed recipient
send (the fan-out's `allSuccessful` flag is false), the final status is
`failed` and the successful on-chain sends are not rolled back (the trace
holds exactly one send per recipient and nothing else), but the
successful recipients' transaction ids are NOT persisted: the stored
record keeps its previous `transactionIds` field and the in-memory result
list is discarded (only status, executedAt and errorMessage are
written). -/
theorem C3_partial_failure_discards_results (env : Env)
    (store : List Transfer) (tid : String) (t : Transfer) (ac : AuthCheck)
    (h1 : env.findThrow1 = none) (hf : findById store tid = some t)
    (hs : t.status = Status.scheduled) (ha : env.auth = Except.ok ac)
    (hv : ac.isValid = true)
    (hx : ¬ totalAmount t.amount t.amountPerRecipient
      (effectiveRecipients t).length > ac.maxAmount)
    (hse : env.saveThrowExecuting = none)
    (hfail : (fanoutOf env t).2.1 = false)
    (h2 : env.findThrow2 = none) (h3 : env.saveThrowFailed = none) :
    (executeScheduledTransfer env store tid).1 =
      .failure (failMsg env t) ∧
    findById (executeScheduledTransfer env store tid).2.1 tid =
      some (failedOf env (execT1 t) (failMsg env t)) ∧
    (failedOf env (execT1 t) (failMsg env t)).status = Status.failed ∧
    (failedOf env (execT1 t) (failMsg env t)).transactionIds =
      t.transactionIds ∧
    (executeScheduledTransfer env store tid).2.2 =
      (List.enumFrom 0 (effectiveRecipients t)).map
        (fun p => Call.send t.userAddress p.2
          (recipientAmount t.amount t.amountPerRecipient
            (effectiveRecipients t).length) t.retryLimit) := by
  have hE := executeScheduledTransfer_some_fail h1 hf hs ha hv hx hse
    hfail h2 h3
  rw [hE]
  refine ⟨rfl, ?_, rfl, rfl, ?_⟩
  · have hfind1 : findById (saveById store (execT1 t)) tid =
        some (execT1 t) :=
      findById_saveById_self hf (execT1 t)
        (by rw [execT1_id]; exact findById_id_eq hf)
    exact findById_saveById_self hfind1 _
      (by rw [failedOf_id, execT1_id]; exact findById_id_eq hf)
  · exact fanout_calls env.send t.userAddress t.amount
      t.amountPerRecipient (effectiveRecipients t).length t.retryLimit
      0 (effectiveRecipients t)

/-- C3, witness: the amended theorem applied to the partial-failure
fixture. -/
theorem C3_witness :
    (executeScheduledTransfer partialFailEnv [twoRecipTransfer] "t3").1 =
      .failure (failMsg partialFailEnv twoRecipTransfer) ∧
    findById (executeScheduledTransfer partialFailEnv [twoRecipTransfer]
      "t3").2.1 "t3" = some (failedOf partialFailEnv
        (execT1 twoRecipTransfer) (failMsg partialFailEnv twoRecipTransfer)) ∧
    (failedOf partialFailEnv (execT1 twoRecipTransfer)
      (failMsg partialFailEnv twoRecipTransfer)).status = Status.failed ∧
    (failedOf partialFailEnv (execT1 twoRecipTransfer)
      (failMsg partialFailEnv twoRecipTransfer)).transactionIds =
      twoRecipTransfer.transactionIds ∧
    (executeScheduledTransfer partialFailEnv [twoRecipTransfer]
      "t3").2.2 =
      (List.enumFrom 0 (effectiveRecipients twoRecipTransfer)).map
        (fun p => Call.send twoRecipTransfer.userAddress p.2
          (recipientAmount twoRecipTransfer.amount
            twoRecipTransfer.amountPerRecipient
            (effectiveRecipients twoRecipTransfer).length)
          twoRecipTransfer.retryLimit) :=
  C3_partial_failure_discards_results partialFailEnv [twoRecipTransfer]
    "t3" twoRecipTransfer ⟨true, 100⟩ rfl (by with_unfolding_all rfl)
    rfl rfl rfl (by with_unfolding_all decide) rfl
    (by with_unfolding_all decide) rfl rfl

/-- C4: for every transfer whose recipient sends all succeed (under a
valid authorization within limit and no persistence rejections),
`executeScheduledTransfer` returns success, persists the record with
status `completed`, `executedAt` set, one result record per recipient
(`transactionIds.length = recipients.length`), and when there is exactly
one recipient the legacy `transactionId` field equals the first result's
transaction id. -/
theorem C4_all_success_completes (env : Env) (store : List Transfer)
    (tid : String) (t : Transfer) (ac : AuthCheck)
    (h1 : env.findThrow1 = none) (hf : findById store tid = some t)
    (hs : t.status = Status.scheduled) (ha : env.auth = Except.ok ac)
    (hv : ac.isValid = true)
    (hx : ¬ totalAmount t.amount t.amountPerRecipient
      (effectiveRecipients t).length > ac.maxAmount)
    (hse : env.saveThrowExecuting = none)
    (hall : (fanoutOf env t).2.1 = true)
    (hsc : env.saveThrowCompleted = none) :
    (executeScheduledTransfer env store tid).1 =
      .success (completedOf env t) (fanoutOf env t).1 ∧
    (completedOf env t).status = Status.completed ∧
    (completedOf env t).executedAt = some env.time ∧
    (completedOf env t).transactionIds = some (fanoutOf env t).1 ∧
    (fanoutOf env t).1.length = (effectiveRecipients t).length ∧
    findById (executeScheduledTransfer env store tid).2.1 tid =
      some (completedOf env t) ∧
    ((effectiveRecipients t).length = 1 →
      ∃ r0, (fanoutOf env t).1 = [r0] ∧
        (completedOf env t).transactionId = r0.transactionId) := by
  have hE := executeScheduledTransfer_all_success h1 hf hs ha hv hx hse
    hall hsc
  rw [hE]
  have hlen : (fanoutOf env t).1.length = (effectiveRecipients t).length := by
    rw [fanoutOf, fanout_results, List.length_map, List.enumFrom_length]
  refine ⟨rfl, rfl, rfl, rfl, hlen, ?_, ?_⟩
  · have hfind1 : findById (saveById store (execT1 t)) tid =
        some (execT1 t) :=
      findById_saveById_self hf (execT1 t)
        (by rw [execT1_id]; exact findById_id_eq hf)
    exact findById_saveById_self hfind1 _
      (by rw [completedOf_id]; exact findById_id_eq hf)
  · intro hone
    have hl1 : (fanoutOf env t).1.length = 1 := by rw [hlen, hone]
    obtain ⟨r0, hr0⟩ := List.length_eq_one.mp hl1
    refine ⟨r0, hr0, ?_⟩
    have hb : ((effectiveRecipients t).length == 1) = true := by
      simp [hone]
    simp only [completedOf, hb, if_pos, hr0, List.head?_cons,
      Option.bind_some]
    rfl

/-- C4, witness: the theorem applied to the all-success single-recipient
fixture. -/
theorem C4_witness :
    (executeScheduledTransfer sampleEnv [sampleTransfer] "t1").1 =
      .success (completedOf sampleEnv sampleTransfer)
        (fanoutOf sampleEnv sampleTransfer).1 ∧
    (completedOf sampleEnv sampleTransfer).status = Status.completed ∧
    (completedOf sampleEnv sampleTransfer).executedAt =
      some sampleEnv.time ∧
    (completedOf sampleEnv sampleTransfer).transactionIds =
      some (fanoutOf sampleEnv sampleTransfer).1 ∧
    (fanoutOf sampleEnv sampleTransfer).1.length =
      (effectiveRecipients sampleTransfer).length ∧
    findById (executeScheduledTransfer sampleEnv [sampleTransfer]
      "t1").2.1 "t1" = some (completedOf sampleEnv sampleTransfer) ∧
    ((effectiveRecipients sampleTransfer).length = 1 →
      ∃ r0, (fanoutOf sampleEnv sampleTransfer).1 = [r0] ∧
        (completedOf sampleEnv sampleTransfer).transactionId =
          r0.transactionId) :=
  C4_all_success_completes sampleEnv [sampleTransfer] "t1" sampleTransfer
    ⟨true, 100⟩ rfl (by with_unfolding_all rfl) rfl rfl rfl
    (by with_unfolding_all decide) rfl (by with_unfolding_all decide) rfl

/-- Helper for C5: under a passing pre-flight check, the trace of one
execution starts with the fan-out's send calls (followed only by the
possible Recurrence Expander call). -/
theorem executeScheduledTransfer_calls_prefix {env : Env}
    {store : List Transfer} {tid : String} {t : Transfer} {ac : AuthCheck}
    (h1 : env.findThrow1 = none) (hf : findById store tid = some t)
    (hs : t.status = Status.scheduled) (ha : env.auth = Except.ok ac)
    (hv : ac.isValid = true)
    (hx : ¬ totalAmount t.amount t.amountPerRecipient
      (effectiveRecipients t).length > ac.maxAmount)
    (hse : env.saveThrowExecuting = none) :
    ∃ rest, (executeScheduledTransfer env store tid).2.2 =
      (fanoutOf env t).2.2 ++ rest := by
  cases hall : (fanoutOf env t).2.1 with
  | false =>
    rw [executeScheduledTransfer_of_attempt_error
      (executeAttempt_some_fail h1 hf hs ha hv hx hse hall)]
    exact ⟨[], (List.append_nil _).symm⟩
  | true =>
    cases hsc : env.saveThrowCompleted with
    | some msg =>
      rw [executeScheduledTransfer_of_attempt_error
        (executeAttempt_save_completed_throw h1 hf hs ha hv hx hse hall hsc)]
      exact ⟨[], (List.append_nil _).symm⟩
    | none =>
      rw [executeScheduledTransfer_all_success h1 hf hs ha hv hx hse hall hsc]
      exact ⟨genNextCalls t, rfl⟩

/-- C5: `totalAmount` is `amount * recipientCount` when the
`amountPerRecipient` flag is set and `amount` otherwise; each
recipient's individual send amount is `amount` when the flag is set and
`amount / recipientCount` otherwise. When the pre-flight check passes
(`totalAmount ≤ maxAmount`), the trace's first `recipientCount` entries
are exactly one send per recipient, in order, each for
`recipientAmount`; when `totalAmount > maxAmount` no send at all is
attempted. -/
theorem C5_amount_split (env : Env) (store : List Transfer)
    (tid : String) (t : Transfer) (ac : AuthCheck)
    (h1 : env.findThrow1 = none) (hf : findById store tid = some t)
    (hs : t.status = Status.scheduled) (ha : env.auth = Except.ok ac)
    (hv : ac.isValid = true) (hse : env.saveThrowExecuting = none) :
    totalAmount t.amount t.amountPerRecipient
        (effectiveRecipients t).length =
      (if t.amountPerRecipient then
        t.amount * ((effectiveRecipients t).length : ℚ) else t.amount) ∧
    recipientAmount t.amount t.amountPerRecipient
        (effectiveRecipients t).length =
      (if t.amountPerRecipient then t.amount
        else t.amount / ((effectiveRecipients t).length : ℚ)) ∧
    (¬ totalAmount t.amount t.amountPerRecipient
        (effectiveRecipients t).length > ac.maxAmount →
      (executeScheduledTransfer env store tid).2.2.take
          (effectiveRecipients t).length =
        (effectiveRecipients t).map (fun addr => Call.send t.userAddress
          addr (recipientAmount t.amount t.amountPerRecipient
            (effectiveRecipients t).length) t.retryLimit)) ∧
    (totalAmount t.amount t.amountPerRecipient
        (effectiveRecipients t).length > ac.maxAmount →
      (executeScheduledTransfer env store tid).2.2 = []) := by
  refine ⟨rfl, rfl, ?_, ?_⟩
  · intro hx
    obtain ⟨rest, hrest⟩ := executeScheduledTransfer_calls_prefix
      h1 hf hs ha hv hx hse
    rw [hrest]
    have hcalls : (fanoutOf env t).2.2 =
        (effectiveRecipients t).map (fun addr => Call.send t.userAddress
          addr (recipientAmount t.amount t.amountPerRecipient
            (effectiveRecipients t).length) t.retryLimit) := by
      rw [fanoutOf, fanout_calls]
      rw [show (fun p : ℕ × String => Call.send t.userAddress p.2
          (recipientAmount t.amount t.amountPerRecipient
            (effectiveRecipients t).length) t.retryLimit) =
        ((fun addr => Call.send t.userAddress addr
          (recipientAmount t.amount t.amountPerRecipient
            (effectiveRecipients t).length) t.retryLimit) ∘ Prod.snd)
        from rfl]
      rw [← List.map_map, List.enumFrom_map_snd]
    rw [hcalls]
    exact take_append_eq_left (List.length_map _ _)
  · intro hx
    rw [executeScheduledTransfer_of_attempt_error
      (executeAttempt_exceeds h1 hf hs ha hv hx)]

/-- C5, witness: the theorem applied to the spec's scenario — amount 30
over recipients A, B, C with `amountPerRecipient` unset and maxAmount
100: each recipient receives 30/3 = 10 and the check uses 30. -/
theorem C5_witness :
    recipientAmount 30 false 3 = 10 ∧
    totalAmount 30 false 3 = 30 ∧
    ¬ totalAmount 30 false 3 > (100 : ℚ) ∧
    (totalAmount splitTransfer.amount splitTransfer.amountPerRecipient
        (effectiveRecipients splitTransfer).length =
      (if splitTransfer.amountPerRecipient then
        splitTransfer.amount *
          ((effectiveRecipients splitTransfer).length : ℚ)
        else splitTransfer.amount) ∧
    recipientAmount splitTransfer.amount splitTransfer.amountPerRecipient
        (effectiveRecipients splitTransfer).length =
      (if splitTransfer.amountPerRecipient then splitTransfer.amount
        else splitTransfer.amount /
          ((effectiveRecipients splitTransfer).length : ℚ)) ∧
    (¬ totalAmount splitTransfer.amount splitTransfer.amountPerRecipient
        (effectiveRecipients splitTransfer).length > (100 : ℚ) →
      (executeScheduledTransfer sampleEnv [splitTransfer] "t5").2.2.take
          (effectiveRecipients splitTransfer).length =
        (effectiveRecipients splitTransfer).map (fun addr =>
          Call.send splitTransfer.userAddress addr
            (recipientAmount splitTransfer.amount
              splitTransfer.amountPerRecipient
              (effectiveRecipients splitTransfer).length)
            splitTransfer.retryLimit)) ∧
    (totalAmount splitTransfer.amount splitTransfer.amountPerRecipient
        (effectiveRecipients splitTransfer).length > (100 : ℚ) →
      (executeScheduledTransfer sampleEnv [splitTransfer] "t5").2.2 = [])) :=
  ⟨by with_unfolding_all decide, by with_unfolding_all decide,
    by with_unfolding_all decide,
    C5_amount_split sampleEnv [splitTransfer] "t5" splitTransfer
      ⟨true, 100⟩ rfl (by with_unfolding_all rfl) rfl rfl rfl rfl⟩

/-- C6: the recipient fan-out is all-attempted, not fail-fast: for every
recipient list and every pattern of per-recipient outcomes, the loop
produces exactly one result record and one send call per recipient, in
recipient-list order, where the i-th record is `resultOf` of the i-th
outcome — in particular a thrown send is caught and recorded as a
`failed` record with the thrown message, and the loop still processes
every remaining recipient. -/
theorem C6_fanout_all_attempted (send : ℕ → SendOutcome) (user : String)
    (amt : ℚ) (perRec : Bool) (n retry : ℕ) (recips : List String) :
    (fanout send user amt perRec n retry 0 recips).1 =
      (List.enumFrom 0 recips).map (fun p => resultOf p.2 (send p.1)) ∧
    (fanout send user amt perRec n retry 0 recips).1.length =
      recips.length ∧
    (fanout send user amt perRec n retry 0 recips).2.2.length =
      recips.length ∧
    (∀ addr msg, resultOf addr (SendOutcome.threw msg) =
      ⟨addr, none, Status.failed, some msg⟩) ∧
    (fanout send user amt perRec n retry 0 recips).2.1 =
      (List.enumFrom 0 recips).all (fun p => (send p.1).succeeded) := by
  refine ⟨fanout_results send user amt perRec n retry 0 recips, ?_, ?_,
    fun _ _ => rfl, fanout_ok send user amt perRec n retry 0 recips⟩
  · rw [fanout_results, List.length_map, List.enumFrom_length]
  · rw [fanout_calls, List.length_map, List.enumFrom_length]

/-- C6, witness: the characterization evaluated on a three-recipient
list where the middle send throws — the thrown send is recorded as a
`failed` record and the third recipient is still attempted. -/
theorem C6_witness :
    (fanout (fun i => if i = 1 then SendOutcome.threw "boom"
        else SendOutcome.ret true (some "tx") none)
      "u" 9 false 3 2 0 ["A", "B", "C"]).1 =
      (List.enumFrom 0 ["A", "B", "C"]).map (fun p => resultOf p.2
        ((fun i => if i = 1 then SendOutcome.threw "boom"
          else SendOutcome.ret true (some "tx") none) p.1)) ∧
    (fanout (fun i => if i = 1 then SendOutcome.threw "boom"
        else SendOutcome.ret true (some "tx") none)
      "u" 9 false 3 2 0 ["A", "B", "C"]).1.length = 3 := by
  have h := C6_fanout_all_attempted
    (fun i => if i = 1 then SendOutcome.threw "boom"
      else SendOutcome.ret true (some "tx") none)
    "u" 9 false 3 2 ["A", "B", "C"]
  exact ⟨h.1, h.2.1⟩

/-- C7: `processDueTransfers` selects exactly the stored transfers with
status `scheduled` and `scheduledDate ≤ now`, sorted ascending by
`scheduledDate`, and invokes `executeScheduledTransfer` on each of them
sequentially in that order (the per-transfer result list follows the due
list id for id); a transfer due in the future is not touched: its stored
record is exactly as before (in particular still `scheduled`). -/
theorem C7_due_selection_and_order (penv : PEnv) (store : List Transfer)
    (hq : penv.queryThrow = none)
    (hnodup : (store.map Transfer.id).Nodup) :
    (∀ t, t ∈ dueTransfers store penv.now ↔
      t ∈ store ∧ t.status = Status.scheduled ∧
        t.scheduledDate ≤ penv.now) ∧
    (dueTransfers store penv.now).Sorted
      (fun a b => a.scheduledDate ≤ b.scheduledDate) ∧
    (runDue penv 0 (dueTransfers store penv.now) store).1.map
      PerTransferResult.transferId =
      (dueTransfers store penv.now).map Transfer.id ∧
    (dueTransfers store penv.now ≠ [] →
      processDueTransfers penv store =
        .ok (.summary (dueTransfers store penv.now).length
            (((runDue penv 0 (dueTransfers store penv.now) store).1.filter
              (fun r => r.result.isSuccess)).length)
            (((runDue penv 0 (dueTransfers store penv.now) store).1.filter
              (fun r => !r.result.isSuccess)).length)
            (runDue penv 0 (dueTransfers store penv.now) store).1,
          (runDue penv 0 (dueTransfers store penv.now) store).2.1,
          (runDue penv 0 (dueTransfers store penv.now) store).2.2)) ∧
    (∀ u ∈ store, u.status = Status.scheduled →
      penv.now < u.scheduledDate →
      findById (runDue penv 0 (dueTransfers store penv.now) store).2.1
        u.id = some u) := by
  refine ⟨fun t => mem_dueTransfers, dueTransfers_sorted store penv.now,
    runDue_ids penv 0 _ store,
    fun hne => processDueTransfers_some_due hq hne, ?_⟩
  intro u hu hsched hfuture
  have hnotdue : ∀ t ∈ dueTransfers store penv.now, u.id ≠ t.id := by
    intro t ht hEq
    obtain ⟨htmem, _, htle⟩ := mem_dueTransfers.mp ht
    have : u = t := List.inj_on_of_nodup_map hnodup hu htmem hEq
    subst this
    exact absurd htle (not_le.mpr hfuture)
  rw [runDue_findById_ne penv 0 _ store hnotdue]
  exact findById_of_mem_nodup hu hnodup

/-- C7, witness: with transfers due at -10 and -5 and one due at +5
relative to `now = 0`, exactly the two due ones are selected, in order
`a` then `b`, and after processing the future transfer `c` is still
stored unchanged in status `scheduled`. -/
theorem C7_witness :
    dueTransfers [dueB, futureC, dueA] samplePEnv.now = [dueA, dueB] ∧
    (runDue samplePEnv 0
      (dueTransfers [dueB, futureC, dueA] samplePEnv.now)
      [dueB, futureC, dueA]).1.map PerTransferResult.transferId =
      ["a", "b"] ∧
    findById (runDue samplePEnv 0
      (dueTransfers [dueB, futureC, dueA] samplePEnv.now)
      [dueB, futureC, dueA]).2.1 "c" = some futureC ∧
    futureC.status = Status.scheduled := by
  have h := C7_due_selection_and_order samplePEnv [dueB, futureC, dueA]
    rfl (by with_unfolding_all decide)
  have hdue : dueTransfers [dueB, futureC, dueA] samplePEnv.now =
      [dueA, dueB] := by with_unfolding_all decide
  refine ⟨hdue, ?_, ?_, rfl⟩
  · rw [h.2.2.1, hdue]
    with_unfolding_all decide
  · have hc := h.2.2.2.2 futureC (by with_unfolding_all decide)
      (by with_unfolding_all decide) (by with_unfolding_all decide)
    exact hc

/-- C8, counterexample: with no due transfers (empty store, query
succeeds), `processDueTransfers` returns the early
`{processed: 0, message}` object, which does not have the
`{processed, successful, failed, results}` summary shape — refuting
"always returns a structured summary of shape
{processed, successful, failed, results} ... including when zero
transfers are due". -/
theorem C8_counterexample :
    processDueTransfers samplePEnv [] =
      Except.ok (ProcessOutcome.empty 0 "No due transfers to process",
        [], []) ∧
    (ProcessOutcome.empty 0 "No due transfers to process").isSummary =
      false :=
  ⟨by with_unfolding_all rfl, rfl⟩

/-- C8, amended: `processDueTransfers` never raises for an individual
transfer's failure: whenever the store query succeeds it returns `ok` —
the full `{processed, successful, failed, results}` summary (with
`successful + failed = processed` and one result entry per due transfer)
when at least one transfer is due, but the early `{processed: 0,
message}` object, not the summary shape, when zero are due; a failure of
the store query itself is propagated to the caller. -/
theorem C8_summary_shape (penv : PEnv) (store : List Transfer) :
    (∀ msg, penv.queryThrow = some msg →
      processDueTransfers penv store = .error msg) ∧
    (penv.queryThrow = none →
      (∃ out, processDueTransfers penv store = Except.ok out) ∧
      (dueTransfers store penv.now = [] →
        processDueTransfers penv store =
          .ok (.empty 0 "No due transfers to process", store, [])) ∧
      (dueTransfers store penv.now ≠ [] →
        ∃ s f rs st cs, processDueTransfers penv store =
            .ok (.summary (dueTransfers store penv.now).length s f rs,
              st, cs) ∧
          s + f = (dueTransfers store penv.now).length ∧
          rs.length = (dueTransfers store penv.now).length)) := by
  refine ⟨fun msg hq => processDueTransfers_query_throw hq, fun hq => ?_⟩
  have hlenr : (runDue penv 0 (dueTransfers store penv.now) store).1.length
      = (dueTransfers store penv.now).length := by
    have := runDue_ids penv 0 (dueTransfers store penv.now) store
    have hlen := congrArg List.length this
    simpa using hlen
  refine ⟨?_, fun hdue => processDueTransfers_none_due hq hdue, ?_⟩
  · by_cases hdue : dueTransfers store penv.now = []
    · exact ⟨_, processDueTransfers_none_due hq hdue⟩
    · exact ⟨_, processDueTransfers_some_due hq hdue⟩
  · intro hdue
    refine ⟨_, _, _, _, _, processDueTransfers_some_due hq hdue, ?_, hlenr⟩
    rw [← hlenr]
    exact length_filter_add_length_filter_not _ _

/-- C8, witness: the amended theorem applied to a store with one due
transfer and to the query producing it. -/
theorem C8_witness :
    samplePEnv.queryThrow = none ∧
    dueTransfers [dueA] samplePEnv.now ≠ [] ∧
    (∃ s f rs st cs, processDueTransfers samplePEnv [dueA] =
        .ok (.summary (dueTransfers [dueA] samplePEnv.now).length s f rs,
          st, cs) ∧
      s + f = (dueTransfers [dueA] samplePEnv.now).length ∧
      rs.length = (dueTransfers [dueA] samplePEnv.now).length) :=
  ⟨rfl, by with_unfolding_all decide,
    ((C8_summary_shape samplePEnv [dueA]).2 rfl).2.2
      (by with_unfolding_all decide)⟩

/-- The fan-out's trace consists of send calls only: it contains no
Recurrence Expander invocation. -/
theorem fanout_calls_no_gennext (env : Env) (t : Transfer) :
    (fanoutOf env t).2.2.filter Call.isGenNext = [] := by
  rw [fanoutOf, fanout_calls]
  apply List.filter_eq_nil_iff.mpr
  intro a ha
  obtain ⟨p, hp, hpa⟩ := List.mem_map.mp ha
  rw [← hpa]
  simp [Call.isGenNext]

/-- Any failing execution makes no Recurrence Expander call: its trace
contains no `generateNextInstance` invocation. -/
theorem executeScheduledTransfer_failure_no_gennext (env : Env)
    (store : List Transfer) (tid : String)
    (hfailres : ∃ msg, (executeScheduledTransfer env store tid).1 =
      ExecResult.failure msg) :
    (executeScheduledTransfer env store tid).2.2.filter Call.isGenNext
      = [] := by
  obtain ⟨msg0, hres⟩ := hfailres
  cases h1 : env.findThrow1 with
  | some msg =>
    rw [executeScheduledTransfer_of_attempt_error
      (executeAttempt_find_throw h1)]
    rfl
  | none =>
  cases hf : findById store tid with
  | none =>
    rw [executeScheduledTransfer_of_attempt_error
      (executeAttempt_not_found h1 hf)]
    rfl
  | some t =>
  by_cases hs : t.status = Status.scheduled
  case neg =>
    rw [executeScheduledTransfer_of_attempt_error
      (executeAttempt_invalid_state h1 hf hs)]
    rfl
  cases ha : env.auth with
  | error msg =>
    rw [executeScheduledTransfer_of_attempt_error
      (executeAttempt_auth_throw h1 hf hs ha)]
    rfl
  | ok ac =>
  cases hv : ac.isValid with
  | false =>
    rw [executeScheduledTransfer_of_attempt_error
      (executeAttempt_auth_invalid h1 hf hs ha hv)]
    rfl
  | true =>
  by_cases hx : totalAmount t.amount t.amountPerRecipient
      (effectiveRecipients t).length > ac.maxAmount
  case pos =>
    rw [executeScheduledTransfer_of_attempt_error
      (executeAttempt_exceeds h1 hf hs ha hv hx)]
    rfl
  cases hse : env.saveThrowExecuting with
  | some msg =>
    rw [executeScheduledTransfer_of_attempt_error
      (executeAttempt_save_executing_throw h1 hf hs ha hv hx hse)]
    rfl
  | none =>
  cases hall : (fanoutOf env t).2.1 with
  | false =>
    rw [executeScheduledTransfer_of_attempt_error
      (executeAttempt_some_fail h1 hf hs ha hv hx hse hall)]
    exact fanout_calls_no_gennext env t
  | true =>
  cases hsc : env.saveThrowCompleted with
  | some msg =>
    rw [executeScheduledTransfer_of_attempt_error
      (executeAttempt_save_completed_throw h1 hf hs ha hv hx hse hall hsc)]
    exact fanout_calls_no_gennext env t
  | none =>
    rw [executeScheduledTransfer_all_success h1 hf hs ha hv hx hse hall
      hsc] at hres
    simp at hres

/-- C9: a transfer with `parentRecurringId` whose execution fully
succeeds triggers exactly one Recurrence Expander call, for its parent
id, and this holds for every expander outcome (`env.genNext` is
unconstrained, so an expander rejection is swallowed): the final status
is still `completed` and the call still returns success. A failing
execution (any returned failure) triggers zero expander calls. -/
theorem C9_recurrence_exactly_once (env : Env) (store : List Transfer)
    (tid : String) (t : Transfer) (ac : AuthCheck) (pid : String)
    (h1 : env.findThrow1 = none) (hf : findById store tid = some t)
    (hs : t.status = Status.scheduled) (ha : env.auth = Except.ok ac)
    (hv : ac.isValid = true)
    (hx : ¬ totalAmount t.amount t.amountPerRecipient
      (effectiveRecipients t).length > ac.maxAmount)
    (hse : env.saveThrowExecuting = none)
    (hall : (fanoutOf env t).2.1 = true)
    (hsc : env.saveThrowCompleted = none)
    (hpid : t.parentRecurringId = some pid) :
    ((executeScheduledTransfer env store tid).2.2.filter Call.isGenNext =
      [Call.genNext pid] ∧
    (executeScheduledTransfer env store tid).1 =
      .success (completedOf env t) (fanoutOf env t).1 ∧
    (completedOf env t).status = Status.completed) ∧
    (∀ env' store' tid',
      (∃ msg, (executeScheduledTransfer env' store' tid').1 =
        ExecResult.failure msg) →
      (executeScheduledTransfer env' store' tid').2.2.filter
        Call.isGenNext = []) := by
  refine ⟨⟨?_, ?_, rfl⟩, executeScheduledTransfer_failure_no_gennext⟩
  · rw [executeScheduledTransfer_all_success h1 hf hs ha hv hx hse hall hsc]
    rw [show ((ExecResult.success (completedOf env t) (fanoutOf env t).1,
        saveById (saveById store (execT1 t)) (completedOf env t),
        (fanoutOf env t).2.2 ++ genNextCalls t)).2.2 =
      (fanoutOf env t).2.2 ++ genNextCalls t from rfl]
    rw [List.filter_append, fanout_calls_no_gennext env t]
    rw [genNextCalls, hpid]
    rfl
  · rw [executeScheduledTransfer_all_success h1 hf hs ha hv hx hse hall hsc]

/-- C9, witness: the theorem applied to the recurring fixture under an
environment whose Recurrence Expander rejects (the rejection is
swallowed), plus the zero-calls part applied to the partial-failure
fixture. -/
theorem C9_witness :
    ((executeScheduledTransfer expanderDownEnv [recurTransfer]
        "t9").2.2.filter Call.isGenNext = [Call.genNext "rec1"] ∧
      (executeScheduledTransfer expanderDownEnv [recurTransfer] "t9").1 =
        .success (completedOf expanderDownEnv recurTransfer)
          (fanoutOf expanderDownEnv recurTransfer).1 ∧
      (completedOf expanderDownEnv recurTransfer).status =
        Status.completed) ∧
    (executeScheduledTransfer partialFailEnv [twoRecipTransfer]
      "t3").2.2.filter Call.isGenNext = [] :=
  have h := C9_recurrence_exactly_once expanderDownEnv [recurTransfer]
    "t9" recurTransfer ⟨true, 100⟩ "rec1" rfl
    (by with_unfolding_all rfl) rfl rfl rfl
    (by with_unfolding_all decide) rfl (by with_unfolding_all decide)
    rfl rfl
  ⟨h.1, h.2 partialFailEnv [twoRecipTransfer] "t3"
    ⟨"Some transfers failed: 1/2", by with_unfolding_all rfl⟩⟩

/-- C10: `executeScheduledTransfer` is total at its public interface:
for every environment (including arbitrary rejections of the store and
of every external call), every store and every transfer id, the returned
value is either `{success: true, transfer, results}` or
`{success: false, error}`; in particular an unknown id, a store
rejection, an invalid state and an authorization-check rejection are all
converted into a returned failure with the thrown message. -/
theorem C10_total_interface (env : Env) (store : List Transfer)
    (tid : String) :
    ((∃ t rs, (executeScheduledTransfer env store tid).1 =
        ExecResult.success t rs) ∨
      (∃ msg, (executeScheduledTransfer env store tid).1 =
        ExecResult.failure msg)) ∧
    (env.findThrow1 = none → findById store tid = none →
      (executeScheduledTransfer env store tid).1 =
        .failure "Scheduled transfer not found") ∧
    (∀ msg, env.findThrow1 = some msg →
      (executeScheduledTransfer env store tid).1 = .failure msg) ∧
    (∀ t, env.findThrow1 = none → findById store tid = some t →
      t.status ≠ Status.scheduled →
      (executeScheduledTransfer env store tid).1 =
        .failure ("Transfer status is " ++ t.status.toString ++
          ", cannot execute")) ∧
    (∀ t msg, env.findThrow1 = none → findById store tid = some t →
      t.status = Status.scheduled → env.auth = Except.error msg →
      (executeScheduledTransfer env store tid).1 = .failure msg) := by
  refine ⟨?_, ?_, ?_, ?_, ?_⟩
  · cases hres : (executeScheduledTransfer env store tid).1 with
    | success t rs => exact Or.inl ⟨t, rs, rfl⟩
    | failure msg => exact Or.inr ⟨msg, rfl⟩
  · intro h1 hf
    rw [executeScheduledTransfer_of_attempt_error
      (executeAttempt_not_found h1 hf)]
  · intro msg h1
    rw [executeScheduledTransfer_of_attempt_error
      (executeAttempt_find_throw h1)]
  · intro t h1 hf hs
    rw [executeScheduledTransfer_of_attempt_error
      (executeAttempt_invalid_state h1 hf hs)]
  · intro t msg h1 hf hs ha
    rw [executeScheduledTransfer_of_attempt_error
      (executeAttempt_auth_throw h1 hf hs ha)]

/-- C10, witness: the totality disjunction and the unknown-id conversion
at a concrete store without the requested id. -/
theorem C10_witness :
    ((∃ t rs, (executeScheduledTransfer sampleEnv [] "missing").1 =
        ExecResult.success t rs) ∨
      (∃ msg, (executeScheduledTransfer sampleEnv [] "missing").1 =
        ExecResult.failure msg)) ∧
    (executeScheduledTransfer sampleEnv [] "missing").1 =
      .failure "Scheduled transfer not found" :=
  ⟨(C10_total_interface sampleEnv [] "missing").1,
    (C10_total_interface sampleEnv [] "missing").2.1 rfl
      (by with_unfolding_all rfl)⟩

end FlowSure
